import Mathlib

/-!
Verification development for the ALSA/fdk-aac audio renderer module
(`renderers/audio_renderer_alsa.c`).

The module is shallowly embedded: each external library call (fdk-aac decoder
calls, ALSA PCM/control calls) is modelled by an environment record carrying
the return value the library would produce, and each embedded function returns
the list of externally visible events (library calls, log emissions) it
performs, together with any state it returns.  Machine integers are `Int`;
no arithmetic in this module can overflow on its real inputs.
-/

set_option autoImplicit false
set_option linter.unusedVariables false

namespace AlsaRenderer

/-- The fields of `audio_renderer_alsa_t` that the render path reads: opaque
handles for the decoder, the PCM stream, the control surface and the control
element id.  The C render function never writes to any of them. -/
structure RendererState where
  audio_decoder : Nat
  audio_renderer : Nat
  ctl : Nat
  ctl_elem_id : Nat
  deriving DecidableEq, Repr

/-- Environment for one `audio_renderer_alsa_render_buffer` call: the return
codes of the four external calls the body can make.  `AAC_DEC_OK` is `0`;
ALSA calls report errors as negative returns. -/
structure RenderEnv where
  fillRet : Int
  decodeRet : Int
  writeRet : Int
  recoverRet : Int
  deriving DecidableEq, Repr

/-- Externally visible events of a render call, in program order. -/
inductive REvent where
  | logDebug
  | fill (len : Int)
  | decodeFrame (bufSize : Int)
  | writeDev (bytes frames : Int)
  | recover (err : Int)
  | logErr
  deriving DecidableEq, Repr

/-- `INT time_data_size = 4 * 480;` — the fixed PCM output buffer size in
bytes (480 samples, 2 channels, 16 bits). -/
def TIME_DATA_SIZE : Int := 4 * 480

/-- `snd_pcm_bytes_to_frames` for the negotiated format `S16_LE`, 2 channels:
4 bytes per frame. -/
def snd_pcm_bytes_to_frames (bytes : Int) : Int := bytes / 4

/-- Embedding of `audio_renderer_alsa_render_buffer`.  `ntp` and `pts` mirror
the `raop_ntp_t *ntp` and `uint64_t pts` parameters, both marked unused in the
source.  Returns the renderer state (the body performs no state writes) and
the event trace:
zero-length early return; debug log; `aacDecoder_Fill` with error log;
`aacDecoder_DecodeFrame` with error log; `snd_pcm_writei`; on a negative write
result one `snd_pcm_recover`; a log if the (possibly recovered) result is
still negative; a partial-write log when `0 < played < received`. -/
def audio_renderer_alsa_render_buffer (env : RenderEnv) (st : RendererState)
    (ntp : Nat) (data_len : Int) (pts : Nat) : RendererState × List REvent :=
  if data_len = 0 then (st, [])
  else
    let received := snd_pcm_bytes_to_frames TIME_DATA_SIZE
    let played0 := env.writeRet
    let played := if played0 < 0 then env.recoverRet else played0
    (st,
      [REvent.logDebug, REvent.fill data_len]
      ++ (if env.fillRet = 0 then [] else [REvent.logErr])
      ++ [REvent.decodeFrame TIME_DATA_SIZE]
      ++ (if env.decodeRet = 0 then [] else [REvent.logErr])
      ++ [REvent.writeDev TIME_DATA_SIZE received]
      ++ (if played0 < 0 then [REvent.recover played0] else [])
      ++ (if played < 0 then [REvent.logErr] else [])
      ++ (if played > 0 ∧ played < received then [REvent.logErr] else []))

/-- Recognises device write events. -/
def isWriteDev : REvent → Bool
  | REvent.writeDev _ _ => true
  | _ => false

/-- Recognises recovery events. -/
def isRecover : REvent → Bool
  | REvent.recover _ => true
  | _ => false

/-- Helper: every render call on a non-empty buffer emits exactly one device
write event, of the fixed 1920-byte / 480-frame PCM frame, whatever the
environment returns for the other calls. -/
theorem render_write_aux (env : RenderEnv) (st : RendererState)
    (ntp pts : Nat) (data_len : Int) (h : data_len ≠ 0) :
    ((audio_renderer_alsa_render_buffer env st ntp data_len pts).2.filter isWriteDev)
      = [REvent.writeDev 1920 480] := by
  simp only [audio_renderer_alsa_render_buffer, if_neg h]
  simp only [snd_pcm_bytes_to_frames, TIME_DATA_SIZE]
  norm_num
  split_ifs <;> simp [isWriteDev]

/-- A concrete renderer state for witnesses. -/
def stW : RendererState := ⟨1, 2, 3, 4⟩

/-- C1: for every non-empty input buffer, `audio_renderer_alsa_render_buffer`
performs exactly one device write attempt, of the fixed 1920-byte (4 bytes x
480 samples) PCM frame, for every environment — in particular even when
`aacDecoder_Fill` (`env.fillRet`) or `aacDecoder_DecodeFrame`
(`env.decodeRet`) reports an error. -/
theorem render_nonempty_one_fixed_write (env : RenderEnv) (st : RendererState)
    (ntp pts : Nat) (data_len : Int) (h : data_len ≠ 0) :
    ((audio_renderer_alsa_render_buffer env st ntp data_len pts).2.filter isWriteDev)
      = [REvent.writeDev 1920 480] :=
  render_write_aux env st ntp pts data_len h

/-- C1 witness: a 10-byte buffer with both the fill step and the decode step
failing still produces exactly the one fixed-size write attempt. -/
theorem render_nonempty_one_fixed_write_witness :
    ((audio_renderer_alsa_render_buffer ⟨-1, -7, 0, 0⟩ stW 0 10 0).2.filter isWriteDev)
      = [REvent.writeDev 1920 480] :=
  render_nonempty_one_fixed_write ⟨-1, -7, 0, 0⟩ stW 0 0 10 (by decide)

/-- C5: a render call with a zero-length input buffer is a no-op: no decoder
fill attempt, no decode attempt, no device write attempt, no other event, and
the renderer state is returned unchanged. -/
theorem render_zero_len_noop (env : RenderEnv) (st : RendererState)
    (ntp pts : Nat) :
    audio_renderer_alsa_render_buffer env st ntp 0 pts = (st, []) := by
  simp [audio_renderer_alsa_render_buffer]

/-- C9: the result of `audio_renderer_alsa_render_buffer` — its event trace
and its state — does not depend on the `ntp` context or the `pts`
presentation timestamp arguments. -/
theorem render_independent_of_ntp_pts (env : RenderEnv) (st : RendererState)
    (data_len : Int) (ntp ntp' pts pts' : Nat) :
    audio_renderer_alsa_render_buffer env st ntp data_len pts
      = audio_renderer_alsa_render_buffer env st ntp' data_len pts' := rfl

/-- Helper: the recovery events of a render call on a non-empty buffer: one
recovery call, carrying the write error, exactly when the device write
returned a negative value. -/
theorem render_recover_filter (env : RenderEnv) (st : RendererState)
    (ntp pts : Nat) (data_len : Int) (h : data_len ≠ 0) :
    ((audio_renderer_alsa_render_buffer env st ntp data_len pts).2.filter isRecover)
      = if env.writeRet < 0 then [REvent.recover env.writeRet] else [] := by
  simp only [audio_renderer_alsa_render_buffer, if_neg h]
  simp only [List.filter_append, List.filter_cons, List.filter_nil, isRecover]
  split_ifs <;> simp_all [isRecover]

/-- C4: when `snd_pcm_writei` returns a negative value, exactly one
`snd_pcm_recover` call is made (with that error value); the call leaves the
renderer state unchanged; if recovery also fails the error is logged (an
error-log event is emitted) and nothing is raised (the call still completes
with its trace); and a subsequent render call on the same state again
performs at most one recovery and its single device write attempt. -/
theorem render_underrun_one_recover (env env' : RenderEnv) (st : RendererState)
    (ntp pts ntp' pts' : Nat) (data_len data_len' : Int)
    (h : data_len ≠ 0) (h' : data_len' ≠ 0) (hw : env.writeRet < 0) :
    ((audio_renderer_alsa_render_buffer env st ntp data_len pts).2.filter isRecover)
      = [REvent.recover env.writeRet] ∧
    (audio_renderer_alsa_render_buffer env st ntp data_len pts).1 = st ∧
    (env.recoverRet < 0 →
      REvent.logErr ∈ (audio_renderer_alsa_render_buffer env st ntp data_len pts).2) ∧
    ((audio_renderer_alsa_render_buffer env' st ntp' data_len' pts').2.filter isRecover).length ≤ 1 ∧
    ((audio_renderer_alsa_render_buffer env' st ntp' data_len' pts').2.filter isWriteDev)
      = [REvent.writeDev 1920 480] := by
  refine ⟨?_, ?_, ?_, ?_, render_write_aux env' st ntp' pts' data_len' h'⟩
  · rw [render_recover_filter env st ntp pts data_len h, if_pos hw]
  · simp only [audio_renderer_alsa_render_buffer, if_neg h]
  · intro hr
    simp only [audio_renderer_alsa_render_buffer, if_neg h]
    simp [hw, hr]
  · rw [render_recover_filter env' st ntp' pts' data_len' h']
    split_ifs <;> simp

/-- C4 witness: write fails with `-32` and recovery fails with `-5`; the trace
shows the single recovery call, the unchanged state, the error log, and the
next call (on a healthy environment) again writes its one frame. -/
theorem render_underrun_one_recover_witness :
    ((audio_renderer_alsa_render_buffer ⟨0, 0, -32, -5⟩ stW 0 1 0).2.filter isRecover)
      = [REvent.recover (-32)] ∧
    (audio_renderer_alsa_render_buffer ⟨0, 0, -32, -5⟩ stW 0 1 0).1 = stW ∧
    ((-5 : Int) < 0 →
      REvent.logErr ∈ (audio_renderer_alsa_render_buffer ⟨0, 0, -32, -5⟩ stW 0 1 0).2) ∧
    ((audio_renderer_alsa_render_buffer ⟨0, 0, 480, 0⟩ stW 0 1 0).2.filter isRecover).length ≤ 1 ∧
    ((audio_renderer_alsa_render_buffer ⟨0, 0, 480, 0⟩ stW 0 1 0).2.filter isWriteDev)
      = [REvent.writeDev 1920 480] :=
  render_underrun_one_recover ⟨0, 0, -32, -5⟩ ⟨0, 0, 480, 0⟩ stW 0 0 0 0 1 1
    (by decide) (by decide) (by decide)

/-! ## Volume control (`audio_renderer_alsa_set_volume`) -/

/-- The C cast `(long)volume` of the `float volume` argument: truncation
toward zero.  The float input is modelled exactly as a rational (every finite
float value is one); `Int.div` truncates toward zero and the denominator is
positive. -/
def truncQ (q : ℚ) : Int := q.num.tdiv q.den

/-- Environment for one `audio_renderer_alsa_set_volume` call:
`snd_ctl_convert_from_dB`, modelled by its return code `convertRet` and the
device's dB-to-raw mapping `convertFn`; the value `raw` holds when the
conversion failed and left it unassigned (`uninitLong`); and the
`snd_ctl_elem_write` return code. -/
structure VolEnv where
  convertRet : Int
  convertFn : Int → Int
  uninitLong : Int
  elemWriteRet : Int

/-- Externally visible events of a volume call, in program order. -/
inductive VEvent where
  | convertCall (dbValue : Int)
  | ctlWrite (idx : Nat) (raw : Int)
  | logErr
  deriving DecidableEq, Repr

/-- Embedding of `audio_renderer_alsa_set_volume`: early return when
`mHasCtrlVolume` is cleared; otherwise `snd_ctl_convert_from_dB` on
`(long)volume * 200` (a failure only logs, leaving `raw` unassigned), then
`snd_ctl_elem_value_set_integer` at channel indices 0 and 1 with the same
`raw`, then `snd_ctl_elem_write` (a failure only logs).  No error is ever
returned: the function is `void` and every failure path falls through. -/
def audio_renderer_alsa_set_volume (env : VolEnv) (mHasCtrlVolume : Bool)
    (volume : ℚ) : List VEvent :=
  if !mHasCtrlVolume then []
  else
    let dbScaled := truncQ volume * 200
    let raw := if env.convertRet < 0 then env.uninitLong else env.convertFn dbScaled
    [VEvent.convertCall dbScaled]
    ++ (if env.convertRet < 0 then [VEvent.logErr] else [])
    ++ [VEvent.ctlWrite 0 raw, VEvent.ctlWrite 1 raw]
    ++ (if env.elemWriteRet < 0 then [VEvent.logErr] else [])

/-- Recognises control-element writes. -/
def isCtlWrite : VEvent → Bool
  | VEvent.ctlWrite _ _ => true
  | _ => false

/-- Truncating an integer-valued rational returns that integer. -/
theorem truncQ_intCast (n : Int) : truncQ (n : ℚ) = n := by
  simp [truncQ, Rat.num_intCast, Rat.den_intCast, Int.tdiv_one]

/-- A volume environment whose `snd_ctl_convert_from_dB` fails (return `-1`)
while the device's dB-to-raw mapping is the identity and the uninitialized
local `raw` happens to hold `99`. -/
def volEnvC7 : VolEnv := ⟨-1, fun x => x, 99, 0⟩

/-- C7 counterexample: when the conversion fails, the call still writes one
value to both channel positions, but that value is the *uninitialized* local
(`99` here), not the result of the device's dB-to-raw mapping (`0` for input
`0` under the identity mapping) — so a setVolume call does not always write
the mapping's raw value. -/
theorem set_volume_convert_failure_writes_uninit :
    ((audio_renderer_alsa_set_volume volEnvC7 true 0).filter isCtlWrite)
      = [VEvent.ctlWrite 0 99, VEvent.ctlWrite 1 99] ∧
    volEnvC7.convertFn (truncQ (0 : ℚ) * 200) ≠ 99 := by
  refine ⟨?_, ?_⟩
  · simp [audio_renderer_alsa_set_volume, volEnvC7, isCtlWrite]
  · have h0 : truncQ (0 : ℚ) = 0 := by simpa using truncQ_intCast 0
    simp [volEnvC7, h0]

/-- C7 amended: with volume control enabled, every call submits exactly the
×200-scaled truncated dB input to `snd_ctl_convert_from_dB`, and the
control-element writes are exactly one write at channel index 0 and one at
channel index 1 of one single raw value — the mapping's result when the
conversion succeeded, the indeterminate uninitialized local when it failed;
a conversion failure only logs, a failing `snd_ctl_elem_write` only logs, and
nothing is ever raised — the call always completes with its trace. -/
theorem set_volume_scaled_convert_same_raw_both (env : VolEnv) (v : ℚ) :
    VEvent.convertCall (truncQ v * 200) ∈ audio_renderer_alsa_set_volume env true v ∧
    ((audio_renderer_alsa_set_volume env true v).filter isCtlWrite)
      = [VEvent.ctlWrite 0 (if env.convertRet < 0 then env.uninitLong
           else env.convertFn (truncQ v * 200)),
         VEvent.ctlWrite 1 (if env.convertRet < 0 then env.uninitLong
           else env.convertFn (truncQ v * 200))] ∧
    (env.convertRet < 0 →
      VEvent.logErr ∈ audio_renderer_alsa_set_volume env true v) ∧
    (env.elemWriteRet < 0 →
      VEvent.logErr ∈ audio_renderer_alsa_set_volume env true v) := by
  refine ⟨?_, ?_, ?_, ?_⟩
  · simp [audio_renderer_alsa_set_volume]
  · simp only [audio_renderer_alsa_set_volume, Bool.not_true,
      Bool.false_eq_true, if_false]
    simp only [List.filter_append, List.filter_cons, List.filter_nil, isCtlWrite]
    split_ifs <;> simp_all [isCtlWrite]
  · intro hc
    simp [audio_renderer_alsa_set_volume, hc]
  · intro hew
    simp [audio_renderer_alsa_set_volume, hew]

/-- C10: the `(long)volume` cast truncates the fractional part before the
×200 scaling, so with volume control enabled a call with `v` and a call with
`trunc v` produce identical traces: the same scaled value is submitted to the
conversion and the same raw value is written to the control element. -/
theorem set_volume_trunc_invariant (env : VolEnv) (v : ℚ) :
    audio_renderer_alsa_set_volume env true v
      = audio_renderer_alsa_set_volume env true ((truncQ v : Int) : ℚ) := by
  simp only [audio_renderer_alsa_set_volume, truncQ_intCast]

/-! ## Construction (`audio_renderer_alsa_init` and its two phases) -/

/-- One ALSA control element: its display name and numeric identifier. -/
structure CtlElem where
  name : String
  numid : Nat
  deriving DecidableEq, Repr

/-- Boolean list-prefix test (first argument is the candidate prefix). -/
def isPrefixB : List Char → List Char → Bool
  | [], _ => true
  | _ :: _, [] => false
  | a :: as, b :: bs => a == b && isPrefixB as bs

/-- C `strstr needle hay ≠ NULL`: the needle occurs as a contiguous substring
of the haystack. -/
def strstrB (needle : List Char) : List Char → Bool
  | [] => isPrefixB needle []
  | b :: bs => isPrefixB needle (b :: bs) || strstrB needle bs

/-- The element-name test of the scan loop:
`strstr(snd_ctl_elem_list_get_name(list, i), "Playback Volume")`. -/
def matchesPlaybackVolume (e : CtlElem) : Bool :=
  strstrB "Playback Volume".data e.name.data

/-- The scan loop body of `audio_renderer_rpi_init_renderer`, applied to the
elements in visiting order (the C loop runs `count` from the list length down
to 1 and inspects index `count - 1`, so the last element is visited first).
Returns the resulting `mHasCtrlVolume` value and the selected `numid`:
- empty visit list: the loop body never runs, the flag keeps the `true` just
  assigned before the loop;
- a matching element: its numid is recorded and the loop breaks (before the
  `count == 1` check, so the flag stays `true`);
- the last visited element (`count == 1`) not matching: the flag is cleared.
-/
def visitElems : List CtlElem → Bool × Option Nat
  | [] => (true, none)
  | [e] => if matchesPlaybackVolume e then (true, some e.numid) else (false, none)
  | e :: rest => if matchesPlaybackVolume e then (true, some e.numid) else visitElems rest

/-- The whole scan: `mHasCtrlVolume = true`, then the loop over the element
list from the highest index down. -/
def scanElems (elems : List CtlElem) : Bool × Option Nat :=
  visitElems elems.reverse

/-- Environment for one construction call: `calloc`, the fdk-aac calls of
`audio_renderer_alsa_init_decoder`, and the ALSA calls of
`audio_renderer_rpi_init_renderer`, each modelled by its success flag or
return code, plus the control-element list of the device and the optional
configured device name. -/
structure InitEnv where
  callocOk : Bool
  aacOpenOk : Bool
  configRawRet : Int
  streamInfoOk : Bool
  pcmOpenRet : Int
  setParamsRet : Int
  ctlOpenRet : Int
  elemIdMallocRet : Int
  elems : List CtlElem
  alsaString : Option String
  deriving DecidableEq, Repr

/-- The heap-allocated resources of one renderer instance. -/
inductive Res where
  | rendererStruct
  | aacDecoder
  | pcmHandle
  | ctlHandle
  | ctlElemId
  deriving DecidableEq, Repr

/-- Embedding of `audio_renderer_alsa_init_decoder`: returns the C return
code (`-1` open failure, `-2` config failure, `-3` stream-info failure, `1`
success) and whether the fdk-aac decoder is allocated at return.  Note that
the two latter failure paths return with the decoder still open. -/
def audio_renderer_alsa_init_decoder (env : InitEnv) : Int × Bool :=
  if !env.aacOpenOk then (-1, false)
  else if env.configRawRet ≠ 0 then (-2, true)
  else if !env.streamInfoOk then (-3, true)
  else (1, true)

/-- Result of `audio_renderer_rpi_init_renderer`: the C return code, which
ALSA resources are allocated at return, and the new value of the global
`mHasCtrlVolume` together with the recorded element numid. -/
structure RInitOut where
  ret : Int
  pcmAlloc : Bool
  ctlAlloc : Bool
  elemIdAlloc : Bool
  mHasOut : Bool
  numid : Option Nat
  deriving DecidableEq, Repr

/-- Embedding of `audio_renderer_rpi_init_renderer`: `snd_pcm_open` failure
returns `-51`; `snd_pcm_set_params` failure returns `-52` (with the PCM
handle still open); afterwards `snd_ctl_open`, `snd_ctl_elem_id_malloc` and
the element-list calls are checked only by the logging macro, the element
scan runs, and the function returns `1` unconditionally.  When the control
open failed, the element-list struct stays zeroed, so the scan sees an empty
list.  `mHas` is the value of the global `mHasCtrlVolume` before the call;
the failure paths return it unchanged. -/
def audio_renderer_rpi_init_renderer (env : InitEnv) (mHas : Bool) : RInitOut :=
  if env.pcmOpenRet < 0 then ⟨-51, false, false, false, mHas, none⟩
  else if env.setParamsRet < 0 then ⟨-52, true, false, false, mHas, none⟩
  else
    let ctlOk := 0 ≤ env.ctlOpenRet
    let elemIdOk := 0 ≤ env.elemIdMallocRet
    let seen := if ctlOk then env.elems else []
    let scan := scanElems seen
    ⟨1, true, ctlOk, elemIdOk, scan.1, scan.2⟩

/-- The opaque data of a successfully constructed renderer. -/
structure RendererInfo where
  device : String
  hasCtrlVolume : Bool
  ctl_elem_numid : Option Nat
  deriving DecidableEq, Repr

/-- Embedding of `audio_renderer_alsa_init`.  Returns the constructed handle
(or `none`), the list of resources still allocated when the call returns, and
the final value of the global `mHasCtrlVolume`.  `videoIsRpi` mirrors the
optional video renderer and its type check (`some b`: a video renderer whose
type is RPI iff `b`); it is dropped unless it is the RPI type, and unused
beyond that.  Failure paths follow the source: decoder-phase failure frees
the struct only (the decoder, if open, is not closed); renderer-phase failure
closes the decoder and frees the struct (the PCM handle, if open, is not
closed). -/
def audio_renderer_alsa_init (env : InitEnv) (mHas : Bool)
    (videoIsRpi : Option Bool) : Option RendererInfo × List Res × Bool :=
  if !env.callocOk then (none, [], mHas)
  else
    let effVideo : Option Bool :=
      match videoIsRpi with
      | some b => if b then some b else none
      | none => none
    let dec := audio_renderer_alsa_init_decoder env
    if dec.1 ≠ 1 then
      (none, if dec.2 then [Res.aacDecoder] else [], mHas)
    else
      let r := audio_renderer_rpi_init_renderer env mHas
      if r.ret ≠ 1 then
        (none,
          (if r.pcmAlloc then [Res.pcmHandle] else [])
          ++ (if r.ctlAlloc then [Res.ctlHandle] else [])
          ++ (if r.elemIdAlloc then [Res.ctlElemId] else []),
          r.mHasOut)
      else
        (some ⟨env.alsaString.getD "default", r.mHasOut, r.numid⟩,
          [Res.rendererStruct, Res.aacDecoder, Res.pcmHandle]
          ++ (if r.ctlAlloc then [Res.ctlHandle] else [])
          ++ (if r.elemIdAlloc then [Res.ctlElemId] else []),
          r.mHasOut)

/-- Helper: visiting a non-empty list in which no element matches clears the
flag and records no numid. -/
theorem visitElems_no_match : ∀ (vs : List CtlElem), vs ≠ [] →
    (∀ e ∈ vs, matchesPlaybackVolume e = false) → visitElems vs = (false, none)
  | [], hne, _ => absurd rfl hne
  | [e], _, hnm => by simp [visitElems, hnm e (by simp)]
  | e :: f :: rest, _, hnm => by
    have h1 : matchesPlaybackVolume e = false := hnm e (by simp)
    have h2 := visitElems_no_match (f :: rest) (by simp)
      (fun x hx => hnm x (List.mem_cons_of_mem e hx))
    simp [visitElems, h1, h2]

/-- Helper: the scan over a non-empty element list with no match clears
`mHasCtrlVolume`. -/
theorem scanElems_no_match (elems : List CtlElem) (hne : elems ≠ [])
    (hnm : ∀ e ∈ elems, matchesPlaybackVolume e = false) :
    (scanElems elems).1 = false := by
  rw [scanElems, visitElems_no_match elems.reverse (by simpa using hne)
    (fun e he => hnm e (List.mem_reverse.mp he))]

/-- Construction environment in which everything succeeds except
`snd_pcm_set_params`, which reports a negative error. -/
def envC2 : InitEnv := ⟨true, true, 0, true, 0, -1, 0, 0, [], none⟩

/-- C2: construction with a failing device format-parameter negotiation
returns no handle, and the decoder and the struct are released — but the PCM
device handle opened just before stays allocated, so a resource does remain
allocated, contrary to the claimed atomicity.  (Likewise, a decoder
raw-configuration failure leaves the opened decoder unreleased.) -/
theorem init_param_failure_leaks_pcm :
    audio_renderer_alsa_init envC2 true none
      = (none, [Res.pcmHandle], true) := by rfl

/-- Construction environment in which everything succeeds except
`snd_ctl_open`, which reports a negative error. -/
def envC6 : InitEnv :=
  ⟨true, true, 0, true, 0, 0, -1, 0, [⟨"Master Playback Volume", 5⟩], none⟩

/-- C6 counterexample: with the control-surface open failing and everything
else succeeding, construction does not fail — it returns a handle (with the
volume flag still set and no element id recorded). -/
theorem init_ctl_open_failure_still_succeeds :
    (audio_renderer_alsa_init envC6 true none).1
      = some ⟨"default", true, none⟩ := by rfl

/-- C6 amended: a control-surface-open failure during construction is not
fatal: it is only logged, and whenever the decoder phase and the device
open/param phase succeed, `create` returns a handle regardless of the
control-surface-open outcome. -/
theorem init_ctl_open_not_fatal (env : InitEnv) (mHas : Bool)
    (vr : Option Bool) (h1 : env.callocOk = true) (h2 : env.aacOpenOk = true)
    (h3 : env.configRawRet = 0) (h4 : env.streamInfoOk = true)
    (h5 : 0 ≤ env.pcmOpenRet) (h6 : 0 ≤ env.setParamsRet) :
    (audio_renderer_alsa_init env mHas vr).1.isSome = true := by
  have hp : ¬ env.pcmOpenRet < 0 := not_lt.mpr h5
  have hs : ¬ env.setParamsRet < 0 := not_lt.mpr h6
  simp [audio_renderer_alsa_init, audio_renderer_alsa_init_decoder,
    audio_renderer_rpi_init_renderer, h1, h2, h3, h4, hp, hs]

/-- C6 witness: the amended statement at the concrete environment whose
control-surface open fails. -/
theorem init_ctl_open_not_fatal_witness :
    (audio_renderer_alsa_init envC6 true none).1.isSome = true :=
  init_ctl_open_not_fatal envC6 true none rfl rfl rfl rfl
    (by decide) (by decide)

/-- Construction environment with an empty control-element list and every
call succeeding. -/
def envC3 : InitEnv := ⟨true, true, 0, true, 0, 0, 0, 0, [], none⟩

/-- A benign volume environment used to exhibit the C3 counterexample. -/
def volEnvC3 : VolEnv := ⟨0, fun x => x, 0, 0⟩

/-- C3 counterexample: with an *empty* element list (so no element matching
"Playback Volume" exists) the scan loop body never runs, `mHasCtrlVolume`
stays `true`, and a subsequent `set_volume` call is not a no-op — it converts
and writes to the control element. -/
theorem empty_ctl_list_keeps_volume_enabled :
    (audio_renderer_rpi_init_renderer envC3 true).mHasOut = true ∧
    audio_renderer_alsa_set_volume volEnvC3 true 0 ≠ [] := by
  refine ⟨rfl, ?_⟩
  simp [audio_renderer_alsa_set_volume]

/-- C3 amended: if the element list is *non-empty* and no element name
matches "Playback Volume", the volume-capability flag is cleared by the scan,
and every `set_volume` call made with the flag cleared is a no-op producing
no conversion and no device write. -/
theorem no_match_nonempty_disables_volume (env : InitEnv) (mHas : Bool)
    (venv : VolEnv) (v : ℚ)
    (hpcm : 0 ≤ env.pcmOpenRet) (hsp : 0 ≤ env.setParamsRet)
    (hctl : 0 ≤ env.ctlOpenRet) (hne : env.elems ≠ [])
    (hnm : ∀ e ∈ env.elems, matchesPlaybackVolume e = false) :
    (audio_renderer_rpi_init_renderer env mHas).mHasOut = false ∧
    audio_renderer_alsa_set_volume venv false v = [] := by
  have hp : ¬ env.pcmOpenRet < 0 := not_lt.mpr hpcm
  have hs : ¬ env.setParamsRet < 0 := not_lt.mpr hsp
  refine ⟨?_, rfl⟩
  simp only [audio_renderer_rpi_init_renderer, if_neg hp, if_neg hs,
    if_pos hctl]
  exact scanElems_no_match env.elems hne hnm

/-- A construction environment with a non-empty element list in which no
element name contains "Playback Volume". -/
def envC3W : InitEnv :=
  ⟨true, true, 0, true, 0, 0, 0, 0, [⟨"Master", 1⟩, ⟨"Mic Capture", 2⟩], none⟩

/-- C3 witness: the amended statement at a concrete two-element list with no
match. -/
theorem no_match_nonempty_disables_volume_witness :
    (audio_renderer_rpi_init_renderer envC3W true).mHasOut = false ∧
    audio_renderer_alsa_set_volume volEnvC3 false 0 = [] :=
  no_match_nonempty_disables_volume envC3W true volEnvC3 0
    (by decide) (by decide) (by decide) (by decide) (by decide)

/-! ## Teardown (`audio_renderer_alsa_destroy`) -/

/-- Outcome of a destroy call under the allocation model: `ok`, or the
undefined behaviour of freeing (and using) an allocation that is no longer
live (`doubleFree`). -/
inductive DestroyOutcome where
  | ok
  | doubleFree
  deriving DecidableEq, Repr

/-- Externally visible events of a destroy call, in program order. -/
inductive DEvent where
  | flushCall
  | decoderClose
  | pcmDrain
  | pcmClose
  | ctlClose
  | freeStruct
  deriving DecidableEq, Repr

/-- Embedding of `audio_renderer_alsa_destroy`.  The heap is the list of live
renderer allocations, a handle is `none` (NULL) or the address of a struct.
The body is guarded by `if (renderer)`: a NULL handle is a no-op.  A non-NULL
handle is flushed, its decoder closed, its PCM drained and closed, its
control handle closed, and the struct freed — the source performs no
liveness check, so on a handle that is no longer live these operations act on
freed memory and the free is a double free: modelled as the `doubleFree`
outcome. -/
def audio_renderer_alsa_destroy (heap : List Nat) (handle : Option Nat) :
    List Nat × DestroyOutcome × List DEvent :=
  match handle with
  | none => (heap, DestroyOutcome.ok, [])
  | some h =>
    if h ∈ heap then
      (heap.erase h, DestroyOutcome.ok,
        [DEvent.flushCall, DEvent.decoderClose, DEvent.pcmDrain,
         DEvent.pcmClose, DEvent.ctlClose, DEvent.freeStruct])
    else (heap, DestroyOutcome.doubleFree, [])

/-- C8 counterexample: destroying the same non-null handle twice is not a
safe no-op — the second call is a double free. -/
theorem destroy_after_destroy_faults :
    (audio_renderer_alsa_destroy
      (audio_renderer_alsa_destroy [7] (some 7)).1 (some 7)).2.1
      = DestroyOutcome.doubleFree := by rfl

/-- C8 amended: destroy on a null handle is a no-op that does not fault and
leaves the heap unchanged; destroy on a handle that is no longer live (for
example, one already destroyed) is a double free — undefined behaviour, not a
no-op. -/
theorem destroy_null_noop_dangling_faults (heap : List Nat) (h : Nat)
    (hh : h ∉ heap) :
    audio_renderer_alsa_destroy heap none = (heap, DestroyOutcome.ok, []) ∧
    (audio_renderer_alsa_destroy heap (some h)).2.1
      = DestroyOutcome.doubleFree := by
  refine ⟨rfl, ?_⟩
  simp [audio_renderer_alsa_destroy, hh]

/-- C8 witness: the amended statement on the empty heap at handle 7. -/
theorem destroy_null_noop_dangling_faults_witness :
    audio_renderer_alsa_destroy [] none = ([], DestroyOutcome.ok, []) ∧
    (audio_renderer_alsa_destroy [] (some 7)).2.1
      = DestroyOutcome.doubleFree :=
  destroy_null_noop_dangling_faults [] 7 (by decide)

end AlsaRenderer
